import Mathlib

/-! # GE_View: a verification development

A shallow embedding of `src/geView/GE_View.js` and `src/geView/EarthStyles.js`.

* JavaScript objects used as dictionaries (`_placemarks`, `_styles`, `_icons`) are
  modelled by `Obj`: the own enumerable properties in creation order, read with
  `Obj.get`, which falls back to the members every plain object inherits from
  `Object.prototype`.
* The three caches are object literals on `GE_View.prototype`; an instance only has
  a cache of its own once it has assigned one (`this._placemarks = {}`), so the
  state is a `Page`: the prototype's objects and the instances.
* The Google Earth plugin is an external collaborator.  `GEPlugin` records what this
  code asks of it: the objects created, the children of the feature tree and the
  abstract view handed to `setAbstractView`.  A property of a plugin object that
  this code has never set is `none`.
* Numbers are modelled by `Int` (no `NaN`, no fractions); an optional argument is an
  `Option`, with `none` for `undefined`.  The code passes numbers on and tests them
  for truth; the one sum it computes, `pt[2] + altitude`, is an addition of doubles
  and is kept as its two operands (`JSSum`), not evaluated.
* A view is taken once its plugin instance exists (after `initCB`); loading the
  plugin, the container and the balloons are not part of the development.
-/

namespace GEView

/-! ## JavaScript values and objects -/

/-- Names of the members a plain object inherits from `Object.prototype`
(ECMAScript 5.1, section 15.2.4, followed by the accessors browsers add). -/
def Object_prototype : List String :=
  ["constructor", "toString", "toLocaleString", "valueOf", "hasOwnProperty",
   "isPrototypeOf", "propertyIsEnumerable",
   "__proto__", "__defineGetter__", "__defineSetter__",
   "__lookupGetter__", "__lookupSetter__"]

/-- What a property read `o[k]` on a cache object evaluates to. -/
inductive JSValue (α : Type) where
  /-- no such property anywhere on the chain -/
  | undefined : JSValue α
  /-- an own property: a plugin object stored by this code -/
  | object (a : α) : JSValue α
  /-- the member of that name inherited from `Object.prototype` -/
  | inherited (name : String) : JSValue α
deriving DecidableEq, Repr

/-- ToBoolean of a property read: `undefined` is falsy, every object and every
function is truthy. -/
def JSValue.truthy {α : Type} : JSValue α → Bool
  | .undefined => false
  | .object _ => true
  | .inherited _ => true

/-- ToBoolean of an optional number: `undefined` and `0` are falsy. -/
def truthyNum : Option Int → Bool
  | none => false
  | some n => n != 0

/-- ToBoolean of an optional unsigned number: `undefined` and `0` are falsy. -/
def truthyNat : Option Nat → Bool
  | none => false
  | some n => n != 0

/-- ToBoolean of an optional string: `undefined` and the empty string are falsy. -/
def truthyStr : Option String → Bool
  | none => false
  | some s => s != ""

/-- An object created by the literal `{}`: its own enumerable properties, in
creation order. -/
structure Obj (α : Type) where
  own : List (String × α)
deriving DecidableEq, Repr

namespace Obj

variable {α : Type}

/-- The literal `{}`. -/
def empty : Obj α := ⟨[]⟩

/-- The own property named `k`, if there is one. -/
def getOwn (o : Obj α) (k : String) : Option α :=
  (o.own.find? (fun e => e.1 == k)).map (fun e => e.2)

/-- The read `o[k]`: the own property, else the member inherited from
`Object.prototype`, else `undefined`. -/
def get (o : Obj α) (k : String) : JSValue α :=
  match o.getOwn k with
  | some a => .object a
  | none => if k ∈ Object_prototype then .inherited k else .undefined

/-- The write `o[k] = a`: replaces the own property `k`, or creates it last. -/
def set (o : Obj α) (k : String) (a : α) : Obj α :=
  if o.own.any (fun e => e.1 == k) then
    ⟨o.own.map (fun e => if e.1 == k then (k, a) else e)⟩
  else
    ⟨o.own ++ [(k, a)]⟩

/-- The statement `delete o[k]`: removes the own property `k`. -/
def delete (o : Obj α) (k : String) : Obj α :=
  ⟨o.own.filter (fun e => !(e.1 == k))⟩

/-- The names `for (var id in o)` enumerates: the own properties (the members of
`Object.prototype` are not enumerable). -/
def keys (o : Obj α) : List String :=
  o.own.map (fun e => e.1)

end Obj

/-! ## Plugin objects -/

/-- The identity of an object created by a plugin instance. -/
structure Ref where
  pid : Nat
  serial : Nat
deriving DecidableEq, Repr

/-- The three arguments of `setLatLngAlt`. -/
structure KmlCoord where
  latitude : Int
  longitude : Int
  altitude : Int
deriving DecidableEq, Repr

/-- The value of an expression `a + b` on two numbers.  JavaScript adds them as
IEEE 754 doubles, so the value is the integer sum only where no rounding occurs; it
is kept as its two operands. -/
structure JSSum where
  left : Int
  right : Int
deriving DecidableEq, Repr

/-- The integer a sum is, where the addition of doubles is exact: both operands and
their integer sum are at most `2 ^ 53` in size, the integers a double holds without
rounding. -/
def JSSum.toInt? (s : JSSum) : Option Int :=
  if s.left.natAbs ≤ 2 ^ 53 ∧ s.right.natAbs ≤ 2 ^ 53 ∧ (s.left + s.right).natAbs ≤ 2 ^ 53 then
    some (s.left + s.right)
  else
    none

/-- One entry of a coordinate array, as pushed by
`pushLatLngAlt(pt[0], pt[1], pt[2] + altitude)`. -/
structure KmlVertex where
  latitude : Int
  longitude : Int
  altitude : JSSum
deriving DecidableEq, Repr

/-- A point geometry. -/
structure KmlPoint where
  ref : Ref
  latLngAlt : Option KmlCoord
deriving DecidableEq, Repr

/-- A line-string geometry. -/
structure KmlLineString where
  ref : Ref
  coordinates : List KmlVertex
  altitudeMode : Option Nat
  tessellate : Option Bool
deriving DecidableEq, Repr

/-- A linear ring, the boundary of a polygon. -/
structure KmlLinearRing where
  ref : Ref
  coordinates : List KmlVertex
  altitudeMode : Option Nat
deriving DecidableEq, Repr

/-- A polygon geometry. -/
structure KmlPolygon where
  ref : Ref
  altitudeMode : Option Nat
  outerBoundary : Option KmlLinearRing
  innerBoundaries : List KmlLinearRing
deriving DecidableEq, Repr

/-- The geometry of a placemark. -/
inductive KmlGeometry where
  | point (pt : KmlPoint)
  | lineString (line : KmlLineString)
  | polygon (poly : KmlPolygon)
deriving DecidableEq, Repr

/-- A placemark handle. -/
structure KmlPlacemark where
  ref : Ref
  name : Option String
  geometry : Option KmlGeometry
deriving DecidableEq, Repr

/-- An icon handle. -/
structure KmlIcon where
  ref : Ref
  href : Option String
  x : Option Nat
  y : Option Nat
  w : Option Nat
  h : Option Nat
deriving DecidableEq, Repr

/-- A style: the poly-style and line-style properties the factory sets. -/
structure KmlStyle where
  ref : Ref
  polyOutline : Option Bool
  polyFill : Option Bool
  polyColor : Option String
  lineWidth : Option Int
  lineColor : Option String
deriving DecidableEq, Repr

/-- A style map handle. -/
structure KmlStyleMap where
  ref : Ref
  style : Option (KmlStyle × KmlStyle)
deriving DecidableEq, Repr

/-- A look-at abstract view. -/
structure KmlLookAt where
  latitude : Int
  longitude : Int
  altitude : Int
  altitudeMode : Nat
  range : Int
  tilt : Int
  heading : Int
deriving DecidableEq, Repr

/-- The point array `[lat, lng, alt]` of the callers; `alt = none` when `pt[2]`
is `undefined`. -/
structure LatLngAlt where
  lat : Int
  lng : Int
  alt : Option Int
deriving DecidableEq, Repr

/-! ## The plugin instance -/

/-- The plugin instance `ge`, as far as this code drives it.  `pid` and `next` name
the objects it creates, `features` are the children of `ge.getFeatures()`,
`copyAsLookAt` is what `ge.getView().copyAsLookAt(mode)` answers and `abstractView`
is the last argument of `ge.getView().setAbstractView`.  The two altitude modes are
constants of the plugin. -/
structure GEPlugin where
  pid : Nat
  next : Nat
  features : List KmlPlacemark
  ALTITUDE_CLAMP_TO_GROUND : Nat
  ALTITUDE_RELATIVE_TO_GROUND : Nat
  copyAsLookAt : Nat → KmlLookAt
  abstractView : Option KmlLookAt

namespace GEPlugin

/-- The identity the next created object gets. -/
def fresh (ge : GEPlugin) : Ref := ⟨ge.pid, ge.next⟩

/-- The plugin after it has created one more object. -/
def created (ge : GEPlugin) : GEPlugin := { ge with next := ge.next + 1 }

/-- The call `ge.createPlacemark("")`. -/
def createPlacemark (ge : GEPlugin) : KmlPlacemark × GEPlugin :=
  (⟨ge.fresh, none, none⟩, ge.created)

/-- The call `ge.createPoint("")`. -/
def createPoint (ge : GEPlugin) : KmlPoint × GEPlugin :=
  (⟨ge.fresh, none⟩, ge.created)

/-- The call `ge.createLineString("")`. -/
def createLineString (ge : GEPlugin) : KmlLineString × GEPlugin :=
  (⟨ge.fresh, [], none, none⟩, ge.created)

/-- The call `ge.createLinearRing("")`. -/
def createLinearRing (ge : GEPlugin) : KmlLinearRing × GEPlugin :=
  (⟨ge.fresh, [], none⟩, ge.created)

/-- The call `ge.createPolygon("")`. -/
def createPolygon (ge : GEPlugin) : KmlPolygon × GEPlugin :=
  (⟨ge.fresh, none, none, []⟩, ge.created)

/-- The call `ge.createIcon("")`. -/
def createIcon (ge : GEPlugin) : KmlIcon × GEPlugin :=
  (⟨ge.fresh, none, none, none, none, none⟩, ge.created)

/-- The call `ge.createStyle("")`. -/
def createStyle (ge : GEPlugin) : KmlStyle × GEPlugin :=
  (⟨ge.fresh, none, none, none, none, none⟩, ge.created)

/-- The call `ge.createStyleMap("")`. -/
def createStyleMap (ge : GEPlugin) : KmlStyleMap × GEPlugin :=
  (⟨ge.fresh, none⟩, ge.created)

/-- The call `ge.getFeatures().appendChild(kml)`: `kml` becomes the last child. -/
def appendChild (ge : GEPlugin) (kml : KmlPlacemark) : GEPlugin :=
  { ge with features := ge.features ++ [kml] }

/-- The call `ge.getFeatures().removeChild(pm)`: the child that is the object `pm`
is detached.  An argument that is no child of this tree (a placemark of another
plugin instance, or a function inherited from `Object.prototype`) detaches
nothing. -/
def removeChild (ge : GEPlugin) (pm : JSValue KmlPlacemark) : GEPlugin :=
  match pm with
  | .object a => { ge with features := ge.features.filter (fun c => c.ref != a.ref) }
  | _ => ge

/-- The call `ge.getView().setAbstractView(lookAt)`. -/
def setAbstractView (ge : GEPlugin) (lookAt : KmlLookAt) : GEPlugin :=
  { ge with abstractView := some lookAt }

end GEPlugin

/-! ## Views and the page -/

/-- An instance made by `new GE_View(container, optionalSettings)`, once the plugin
has called `initCB`: `_ge` is its plugin instance; `_placemarks` is its own
property of that name, `none` while the instance still inherits the one of
`GE_View.prototype`. -/
structure GE_View where
  _ge : GEPlugin
  _placemarks : Option (Obj KmlPlacemark)

/-- The script's heap: the three objects `_placemarks`, `_styles` and `_icons` of
`GE_View.prototype`, and the instances. -/
structure Page where
  prototype_placemarks : Obj KmlPlacemark
  prototype_styles : Obj KmlStyleMap
  prototype_icons : Obj KmlIcon
  views : Nat → GE_View

namespace Page

/-- The plugin instance `this.getGE()`. -/
def getGE (p : Page) (self : Nat) : GEPlugin := (p.views self)._ge

/-- The plugin instance of `self` after calls that changed its state. -/
def setGE (p : Page) (self : Nat) (ge : GEPlugin) : Page :=
  { p with views := fun i => if i = self then { p.views i with _ge := ge } else p.views i }

/-- The read `this._placemarks`: the own property, else the prototype's. -/
def placemarks (p : Page) (self : Nat) : Obj KmlPlacemark :=
  match (p.views self)._placemarks with
  | some o => o
  | none => p.prototype_placemarks

/-- The assignment `this._placemarks = o`: creates or replaces the own property. -/
def assignPlacemarks (p : Page) (self : Nat) (o : Obj KmlPlacemark) : Page :=
  { p with views := fun i =>
      if i = self then { p.views i with _placemarks := some o } else p.views i }

/-- A change made in place to the object `this._placemarks` refers to: it lands in
the own object of the instance, else in the object shared through the prototype. -/
def updatePlacemarks (p : Page) (self : Nat)
    (f : Obj KmlPlacemark → Obj KmlPlacemark) : Page :=
  match (p.views self)._placemarks with
  | some o => p.assignPlacemarks self (f o)
  | none => { p with prototype_placemarks := f p.prototype_placemarks }

/-- The features of the plugin instance of `self`. -/
def features (p : Page) (self : Nat) : List KmlPlacemark := (p.getGE self).features

end Page

/-- What a method call leaves behind: the value returned (`none` for `undefined`)
and the page. -/
structure Returned (α : Type) where
  ret : Option α
  page : Page

/-! ## GE_View.js: placemarks -/

/-- The method `getPlacemark`. -/
def getPlacemark (p : Page) (self : Nat) (id : String) : JSValue KmlPlacemark :=
  (p.placemarks self).get id

/-- The method `addPlacemark`. -/
def addPlacemark (p : Page) (self : Nat) (id name : String) (latitude longitude : Int)
    (altitude : Option Int) : Returned KmlPlacemark :=
  if !((p.placemarks self).get id).truthy then
    let ge := p.getGE self
    let altitude : Int := if !truthyNum altitude then 0 else altitude.getD 0
    let kml := ge.createPlacemark.1
    let ge := ge.createPlacemark.2
    let kml := { kml with name := some name }
    let pt := ge.createPoint.1
    let ge := ge.createPoint.2
    let pt := { pt with latLngAlt := some ⟨latitude, longitude, altitude⟩ }
    let kml := { kml with geometry := some (.point pt) }
    let p := p.updatePlacemarks self (fun o => o.set id kml)
    let ge := ge.appendChild kml
    ⟨some kml, p.setGE self ge⟩
  else
    ⟨none, p⟩

/-- The method `removePlacemark`. -/
def removePlacemark (p : Page) (self : Nat) (id : String) : Page :=
  let pm := (p.placemarks self).get id
  if pm.truthy then
    let ge := p.getGE self
    let ge := ge.removeChild pm
    (p.updatePlacemarks self (fun o => o.delete id)).setGE self ge
  else
    p

/-- The loop of `removeAllPlacemarks`: one `removeChild` for each enumerated name. -/
def removeEach (o : Obj KmlPlacemark) : List String → GEPlugin → GEPlugin
  | [], ge => ge
  | id :: ids, ge =>
    let pm := o.get id
    removeEach o ids (ge.removeChild pm)

/-- The method `removeAllPlacemarks`. -/
def removeAllPlacemarks (p : Page) (self : Nat) : Page :=
  let ge := p.getGE self
  let ge := removeEach (p.placemarks self) (p.placemarks self).keys ge
  (p.setGE self ge).assignPlacemarks self Obj.empty

/-- The body of the vertex loops `for (var i = 0; i < points.length; i++)`: a point
whose `pt[2]` is falsy gets `pt[2] = 0` written into it, then
`pushLatLngAlt(pt[0], pt[1], pt[2] + altitude)` grows the coordinate array, the sum
being the one of the doubles `pt[2]` and `altitude`.  The result is the coordinate
array and the points as the loop leaves them. -/
def pushPoints (altitude : Int) :
    List LatLngAlt → List KmlVertex → List KmlVertex × List LatLngAlt
  | [], coords => (coords, [])
  | pt :: rest, coords =>
    let pt := if !truthyNum pt.alt then { pt with alt := some 0 } else pt
    let coords := coords ++ [⟨pt.lat, pt.lng, ⟨pt.alt.getD 0, altitude⟩⟩]
    let r := pushPoints altitude rest coords
    (r.1, pt :: r.2)

/-- What `addPlacemarkLine` leaves behind: the value returned, the page and the
caller's `points` array. -/
structure ReturnedLine where
  ret : Option KmlPlacemark
  page : Page
  points : List LatLngAlt

/-- The method `addPlacemarkLine`. -/
def addPlacemarkLine (p : Page) (self : Nat) (id : String) (points : List LatLngAlt)
    (altitude : Option Int) : ReturnedLine :=
  if !((p.placemarks self).get id).truthy then
    let ge := p.getGE self
    let altitude : Int := if !truthyNum altitude then 0 else altitude.getD 0
    let kml := ge.createPlacemark.1
    let ge := ge.createPlacemark.2
    let line := ge.createLineString.1
    let ge := ge.createLineString.2
    let pushed := pushPoints altitude points line.coordinates
    let line := { line with coordinates := pushed.1 }
    let line := { line with altitudeMode := some ge.ALTITUDE_CLAMP_TO_GROUND }
    let line := { line with tessellate := some true }
    let kml := { kml with geometry := some (.lineString line) }
    let p := p.updatePlacemarks self (fun o => o.set id kml)
    let ge := ge.appendChild kml
    ⟨some kml, p.setGE self ge, pushed.2⟩
  else
    ⟨none, p, points⟩

/-- The loop over `innerPolies` of `addPlacemarkPolygon`: each inner polygon gets a
linear ring of its own, appended to the inner boundaries.  The result is the
polygon, the plugin and the inner polygons as the loop leaves them. -/
def pushInner (altitude : Int) :
    List (List LatLngAlt) → KmlPolygon → GEPlugin →
      KmlPolygon × GEPlugin × List (List LatLngAlt)
  | [], poly, ge => (poly, ge, [])
  | innerPoly :: rest, poly, ge =>
    let inner := ge.createLinearRing.1
    let ge := ge.createLinearRing.2
    let inner := { inner with altitudeMode := some ge.ALTITUDE_CLAMP_TO_GROUND }
    let pushed := pushPoints altitude innerPoly inner.coordinates
    let inner := { inner with coordinates := pushed.1 }
    let poly := { poly with innerBoundaries := poly.innerBoundaries ++ [inner] }
    let r := pushInner altitude rest poly ge
    (r.1, r.2.1, pushed.2 :: r.2.2)

/-- What `addPlacemarkPolygon` leaves behind: the value returned, the page and the
caller's `outerPoly` and `innerPolies` arrays. -/
structure ReturnedPolygon where
  ret : Option KmlPlacemark
  page : Page
  outerPoly : List LatLngAlt
  innerPolies : Option (List (List LatLngAlt))

/-- The method `addPlacemarkPolygon`; `innerPolies = none` when the argument is
omitted. -/
def addPlacemarkPolygon (p : Page) (self : Nat) (id : String) (outerPoly : List LatLngAlt)
    (innerPolies : Option (List (List LatLngAlt))) (altitude : Option Int) :
    ReturnedPolygon :=
  if !((p.placemarks self).get id).truthy then
    let ge := p.getGE self
    let altitude : Int := if !truthyNum altitude then 0 else altitude.getD 0
    let kml := ge.createPlacemark.1
    let ge := ge.createPlacemark.2
    let poly := ge.createPolygon.1
    let ge := ge.createPolygon.2
    let poly := { poly with altitudeMode := some ge.ALTITUDE_CLAMP_TO_GROUND }
    let outer := ge.createLinearRing.1
    let ge := ge.createLinearRing.2
    let outer := { outer with altitudeMode := some ge.ALTITUDE_CLAMP_TO_GROUND }
    let pushed := pushPoints altitude outerPoly outer.coordinates
    let outer := { outer with coordinates := pushed.1 }
    let poly := { poly with outerBoundary := some outer }
    let r : KmlPolygon × GEPlugin × Option (List (List LatLngAlt)) :=
      match innerPolies with
      | some inners =>
        let q := pushInner altitude inners poly ge
        (q.1, q.2.1, some q.2.2)
      | none => (poly, ge, none)
    let poly := r.1
    let ge := r.2.1
    let kml := { kml with geometry := some (.polygon poly) }
    let p := p.updatePlacemarks self (fun o => o.set id kml)
    let ge := ge.appendChild kml
    ⟨some kml, p.setGE self ge, pushed.2, r.2.2⟩
  else
    ⟨none, p, outerPoly, innerPolies⟩

/-! ## GE_View.js: icons and styles -/

/-- The method `getIcon`; no instance ever assigns `_icons`, so `this._icons` is
the object of the prototype. -/
def getIcon (p : Page) (_self : Nat) (id : String) : JSValue KmlIcon :=
  p.prototype_icons.get id

/-- The method `addIcon`. -/
def addIcon (p : Page) (self : Nat) (id href : String) (x y w h : Option Nat) :
    Returned KmlIcon :=
  let ge := p.getGE self
  let icon := ge.createIcon.1
  let ge := ge.createIcon.2
  let icon := { icon with href := some href }
  let icon :=
    if truthyNat x && truthyNat y && truthyNat w && truthyNat h then
      { icon with x := x, y := y, w := w, h := h }
    else
      icon
  let p := { p with prototype_icons := p.prototype_icons.set id icon }
  ⟨some icon, p.setGE self ge⟩

/-- The method `getStyle`; no instance ever assigns `_styles`, so `this._styles` is
the object of the prototype. -/
def getStyle (p : Page) (_self : Nat) (id : String) : JSValue KmlStyleMap :=
  p.prototype_styles.get id

/-- The method `addStyle`; `highlight = none` when the argument is omitted. -/
def addStyle (p : Page) (self : Nat) (id : String) (normal : KmlStyle)
    (highlight : Option KmlStyle) : Returned KmlStyleMap :=
  let ge := p.getGE self
  let highlight : KmlStyle :=
    match highlight with
    | some hl => hl
    | none => normal
  let styleMap := ge.createStyleMap.1
  let ge := ge.createStyleMap.2
  let styleMap := { styleMap with style := some (normal, highlight) }
  let p := { p with prototype_styles := p.prototype_styles.set id styleMap }
  ⟨some styleMap, p.setGE self ge⟩

/-! ## GE_View.js: camera -/

/-- The object `params` of `setCamera`; a field is `none` when it is `undefined`. -/
structure CameraParams where
  lat : Option Int
  lon : Option Int
  alt : Option Int
  tilt : Option Int
  heading : Option Int
deriving DecidableEq, Repr

/-- The setter calls of `setCamera` on the look-at copy. -/
def applyCamera (params : CameraParams) (lookAt : KmlLookAt) : KmlLookAt :=
  let lookAt :=
    if params.lat ≠ none ∧ params.lon ≠ none then
      let lookAt := { lookAt with latitude := params.lat.getD 0 }
      { lookAt with longitude := params.lon.getD 0 }
    else lookAt
  let lookAt :=
    if params.alt ≠ none then { lookAt with range := params.alt.getD 0 } else lookAt
  let lookAt :=
    if params.tilt ≠ none then { lookAt with tilt := params.tilt.getD 0 } else lookAt
  let lookAt :=
    if params.heading ≠ none then { lookAt with heading := params.heading.getD 0 }
    else lookAt
  lookAt

/-- The method `setCamera`; `altMode = none` when the argument is omitted. -/
def setCamera (p : Page) (self : Nat) (params : CameraParams) (altMode : Option Nat) :
    Page :=
  let ge := p.getGE self
  let altMode : Nat :=
    if !truthyNat altMode then ge.ALTITUDE_RELATIVE_TO_GROUND else altMode.getD 0
  let lookAt := ge.copyAsLookAt altMode
  let lookAt := applyCamera params lookAt
  p.setGE self (ge.setAbstractView lookAt)

/-! ## EarthStyles.js -/

/-- The factory `GE_View.EarthStyles.createSimplePolyStyle`; an argument is `none`
when it is omitted (`undefined` or `null`). -/
def createSimplePolyStyle (ge : GEPlugin) (fill outline : Option String)
    (width : Option Int) : KmlStyle × GEPlugin :=
  let width : Int := if !truthyNum width then 1 else width.getD 0
  let style := ge.createStyle.1
  let ge := ge.createStyle.2
  let style :=
    if truthyStr outline then
      let style := { style with polyOutline := some true }
      let style := { style with lineWidth := some width }
      { style with lineColor := outline }
    else
      { style with polyOutline := some false }
  let style :=
    if truthyStr fill then
      let style := { style with polyFill := some true }
      { style with polyColor := fill }
    else
      { style with polyFill := some false }
  (style, ge)

/-! ## A page to evaluate on -/

/-- A plugin instance that has created nothing yet, with the altitude modes of the
Google Earth API and a view at the origin. -/
def GEPlugin.start (pid : Nat) : GEPlugin :=
  { pid := pid, next := 0, features := [],
    ALTITUDE_CLAMP_TO_GROUND := 0, ALTITUDE_RELATIVE_TO_GROUND := 1,
    copyAsLookAt := fun mode => ⟨0, 0, 0, mode, 1000, 0, 0⟩,
    abstractView := none }

/-- The page right after the script has loaded and the views have started: the
caches of the prototype are empty and no instance has a cache of its own. -/
def Page.start : Page :=
  { prototype_placemarks := Obj.empty, prototype_styles := Obj.empty,
    prototype_icons := Obj.empty,
    views := fun i => { _ge := GEPlugin.start i, _placemarks := none } }

/-- The placemark `addPlacemark("pin", "Home", 10, 20)` creates on the starting
page. -/
def pin : KmlPlacemark :=
  ⟨⟨0, 0⟩, some "Home", some (.point ⟨⟨0, 1⟩, some ⟨10, 20, 0⟩⟩)⟩

/-- The starting page after view 0 has called `addPlacemark("pin", "Home", 10, 20)`. -/
def Page.withPin : Page := (addPlacemark Page.start 0 "pin" "Home" 10 20 none).page

/-! ## Notions the statements use -/

/-- The plugin object `r` is held by the cache `o` under one of the names `ids`. -/
def heldUnder (o : Obj KmlPlacemark) (ids : List String) (r : Ref) : Bool :=
  ids.any fun k =>
    match o.get k with
    | .object pm => pm.ref == r
    | _ => false

/-- The plugin object `r` is held by the cache `o`. -/
def held (o : Obj KmlPlacemark) (r : Ref) : Bool := heldUnder o o.keys r

/-- The identifier has been added: a call of one of the three add methods with it,
on some page and view, has returned a handle. -/
def Added (id : String) : Prop :=
  (∃ (q : Page) (s : Nat) (name : String) (latitude longitude : Int) (altitude : Option Int),
      (addPlacemark q s id name latitude longitude altitude).ret ≠ none) ∨
  (∃ (q : Page) (s : Nat) (points : List LatLngAlt) (altitude : Option Int),
      (addPlacemarkLine q s id points altitude).ret ≠ none) ∨
  (∃ (q : Page) (s : Nat) (outerPoly : List LatLngAlt)
      (innerPolies : Option (List (List LatLngAlt))) (altitude : Option Int),
      (addPlacemarkPolygon q s id outerPoly innerPolies altitude).ret ≠ none)

/-! ## Sequences of calls -/

/-- A call of one of the five methods that change the placemark cache, with its
arguments. -/
inductive Call where
  | addPlacemark (id name : String) (latitude longitude : Int) (altitude : Option Int)
  | addPlacemarkLine (id : String) (points : List LatLngAlt) (altitude : Option Int)
  | addPlacemarkPolygon (id : String) (outerPoly : List LatLngAlt)
      (innerPolies : Option (List (List LatLngAlt))) (altitude : Option Int)
  | removePlacemark (id : String)
  | removeAllPlacemarks
deriving DecidableEq, Repr

/-- The page after view `self` has made the call. -/
def runCall (p : Page) (self : Nat) : Call → Page
  | .addPlacemark id name latitude longitude altitude =>
    (GEView.addPlacemark p self id name latitude longitude altitude).page
  | .addPlacemarkLine id points altitude =>
    (GEView.addPlacemarkLine p self id points altitude).page
  | .addPlacemarkPolygon id outerPoly innerPolies altitude =>
    (GEView.addPlacemarkPolygon p self id outerPoly innerPolies altitude).page
  | .removePlacemark id => GEView.removePlacemark p self id
  | .removeAllPlacemarks => GEView.removeAllPlacemarks p self

/-- The page after view `self` has made the calls, one after the other. -/
def runCalls (p : Page) (self : Nat) : List Call → Page
  | [] => p
  | c :: cs => runCalls (runCall p self c) self cs

/-- The cache and the feature tree of view `v` agree: the children of the feature
tree are the objects of the cache entries, in the order of the entries; no two
entries have the same name or hold the same object; and every object held was
created by the plugin instance of the view. -/
structure Consistent (p : Page) (v : Nat) : Prop where
  attached : p.features v = (p.placemarks v).own.map (fun e => e.2)
  names : ((p.placemarks v).own.map (fun e => e.1)).Nodup
  objects : ((p.placemarks v).own.map (fun e => e.2.ref)).Nodup
  created : ∀ e ∈ (p.placemarks v).own,
    e.2.ref.pid = (p.getGE v).pid ∧ e.2.ref.serial < (p.getGE v).next

/-- A sequence of calls to evaluate on: two placemarks are added, a third addition
under a used identifier and one under an inherited name are refused, the first
placemark is removed and a polygon is added. -/
def sampleCalls : List Call :=
  [.addPlacemark "pin" "Home" 10 20 none,
   .addPlacemarkLine "route" [⟨1, 2, none⟩, ⟨3, 4, none⟩] (some 5),
   .addPlacemark "pin" "Work" 30 40 none,
   .addPlacemark "constructor" "Site" 0 0 none,
   .removePlacemark "pin",
   .removePlacemark "toString",
   .addPlacemarkPolygon "area" [⟨0, 0, none⟩, ⟨0, 1, none⟩, ⟨1, 0, none⟩] none none]

/-! ## Reading, writing and deleting properties -/

namespace Obj

variable {α : Type}

theorem find_replace_self (k : String) (a : α) (l : List (String × α))
    (h : l.any (fun e => e.1 == k) = true) :
    (l.map (fun e => if e.1 == k then (k, a) else e)).find? (fun e => e.1 == k)
      = some (k, a) := by
  induction l with
  | nil => simp at h
  | cons e l ih =>
    rw [List.map_cons, List.find?_cons]
    cases hek : (e.1 == k) with
    | true => simp
    | false =>
      simp only [List.any_cons, hek, Bool.false_or] at h
      simp only [Bool.false_eq_true, if_false, hek]
      exact ih h

theorem find_replace_of_ne (k k' : String) (a : α) (hk : (k == k') = false)
    (l : List (String × α)) :
    ((l.map (fun e => if e.1 == k then (k, a) else e)).find? (fun e => e.1 == k')).map
        (fun e => e.2)
      = (l.find? (fun e => e.1 == k')).map (fun e => e.2) := by
  induction l with
  | nil => rfl
  | cons e l ih =>
    rw [List.map_cons, List.find?_cons, List.find?_cons]
    cases hek : (e.1 == k) with
    | true =>
      have : (e.1 == k') = false := by
        rw [beq_iff_eq] at hek
        rw [hek]; exact hk
      simp only [if_true, hk, this]
      exact ih
    | false =>
      cases hek' : (e.1 == k') with
      | true => simp only [Bool.false_eq_true, if_false, hek']
      | false =>
        simp only [Bool.false_eq_true, if_false, hek']
        exact ih

theorem find_filter_of_ne (k k' : String) (hk : (k == k') = false)
    (l : List (String × α)) :
    (l.filter (fun e => !(e.1 == k))).find? (fun e => e.1 == k')
      = l.find? (fun e => e.1 == k') := by
  induction l with
  | nil => rfl
  | cons e l ih =>
    rw [List.filter_cons, List.find?_cons]
    cases hek : (e.1 == k) with
    | true =>
      have : (e.1 == k') = false := by
        rw [beq_iff_eq] at hek
        rw [hek]; exact hk
      simp [this, ih]
    | false =>
      cases hek' : (e.1 == k') with
      | true => simp [hek']
      | false => simp [hek', ih]

theorem getOwn_empty (k : String) : (empty : Obj α).getOwn k = none := rfl

theorem getOwn_set_self (o : Obj α) (k : String) (a : α) :
    (o.set k a).getOwn k = some a := by
  unfold set getOwn
  split
  · rename_i h
    rw [find_replace_self k a o.own h]; rfl
  · rename_i h
    have hn : o.own.find? (fun e => e.1 == k) = none := by
      simp only [List.find?_eq_none]
      intro e he hk
      exact h (List.any_eq_true.mpr ⟨e, he, hk⟩)
    simp [List.find?_append, hn]

theorem getOwn_set_of_ne (o : Obj α) {k k' : String} (a : α) (h : k' ≠ k) :
    (o.set k a).getOwn k' = o.getOwn k' := by
  have hk : (k == k') = false := by
    rw [beq_eq_false_iff_ne]; exact fun e => h e.symm
  unfold set getOwn
  split
  · exact find_replace_of_ne k k' a hk o.own
  · simp only [List.find?_append, List.find?_cons, hk, List.find?_nil, Option.or_none]

theorem getOwn_delete_self (o : Obj α) (k : String) : (o.delete k).getOwn k = none := by
  simp [delete, getOwn, List.find?_filter]

theorem getOwn_delete_of_ne (o : Obj α) {k k' : String} (h : k' ≠ k) :
    (o.delete k).getOwn k' = o.getOwn k' := by
  have hk : (k == k') = false := by
    rw [beq_eq_false_iff_ne]; exact fun e => h e.symm
  unfold delete getOwn
  rw [find_filter_of_ne k k' hk]

theorem get_set_self (o : Obj α) (k : String) (a : α) : (o.set k a).get k = .object a := by
  simp [get, getOwn_set_self]

theorem get_set_of_ne (o : Obj α) {k k' : String} (a : α) (h : k' ≠ k) :
    (o.set k a).get k' = o.get k' := by
  simp [get, getOwn_set_of_ne o a h]

theorem get_delete_of_ne (o : Obj α) {k k' : String} (h : k' ≠ k) :
    (o.delete k).get k' = o.get k' := by
  simp [get, getOwn_delete_of_ne o h]

theorem get_delete_self (o : Obj α) (k : String) :
    (o.delete k).get k = if k ∈ Object_prototype then .inherited k else .undefined := by
  simp [get, getOwn_delete_self]

theorem get_empty (k : String) :
    (empty : Obj α).get k = if k ∈ Object_prototype then .inherited k else .undefined := by
  simp [get, getOwn_empty]

/-- A read is falsy exactly when there is no own property of that name and the name is
none of `Object.prototype`. -/
theorem falsy_iff (o : Obj α) (k : String) :
    (o.get k).truthy = false ↔ o.getOwn k = none ∧ k ∉ Object_prototype := by
  unfold get
  cases h : o.getOwn k with
  | some a => simp [JSValue.truthy]
  | none =>
    by_cases hk : k ∈ Object_prototype <;> simp [hk, JSValue.truthy]

theorem get_eq_undefined_iff (o : Obj α) (k : String) :
    o.get k = .undefined ↔ o.getOwn k = none ∧ k ∉ Object_prototype := by
  unfold get
  cases h : o.getOwn k with
  | some a => simp
  | none =>
    by_cases hk : k ∈ Object_prototype <;> simp [hk]

theorem get_eq_object_iff (o : Obj α) (k : String) (a : α) :
    o.get k = .object a ↔ o.getOwn k = some a := by
  unfold get
  cases h : o.getOwn k with
  | some b => simp
  | none =>
    by_cases hk : k ∈ Object_prototype <;> simp [hk]

end Obj

/-! ## The page: reads after writes -/

namespace Page

@[simp] theorem getGE_setGE (p : Page) (self : Nat) (ge : GEPlugin) :
    (p.setGE self ge).getGE self = ge := by
  simp [getGE, setGE]

theorem getGE_setGE_of_ne (p : Page) {self other : Nat} (ge : GEPlugin)
    (h : other ≠ self) : (p.setGE self ge).getGE other = p.getGE other := by
  simp [getGE, setGE, h]

@[simp] theorem placemarks_setGE (p : Page) (self other : Nat) (ge : GEPlugin) :
    (p.setGE other ge).placemarks self = p.placemarks self := by
  unfold placemarks setGE
  by_cases h : self = other <;> simp [h]

@[simp] theorem placemarks_assignPlacemarks (p : Page) (self : Nat)
    (o : Obj KmlPlacemark) : (p.assignPlacemarks self o).placemarks self = o := by
  simp [placemarks, assignPlacemarks]

@[simp] theorem getGE_assignPlacemarks (p : Page) (self other : Nat)
    (o : Obj KmlPlacemark) : (p.assignPlacemarks other o).getGE self = p.getGE self := by
  unfold getGE assignPlacemarks
  by_cases h : self = other <;> simp [h]

@[simp] theorem placemarks_updatePlacemarks (p : Page) (self : Nat)
    (f : Obj KmlPlacemark → Obj KmlPlacemark) :
    (p.updatePlacemarks self f).placemarks self = f (p.placemarks self) := by
  unfold updatePlacemarks
  cases h : (p.views self)._placemarks with
  | some o =>
    simp only [placemarks_assignPlacemarks]
    simp [placemarks, h]
  | none => simp [placemarks, h]

@[simp] theorem getGE_updatePlacemarks (p : Page) (self other : Nat)
    (f : Obj KmlPlacemark → Obj KmlPlacemark) :
    (p.updatePlacemarks other f).getGE self = p.getGE self := by
  unfold updatePlacemarks
  cases h : (p.views other)._placemarks with
  | some o => simp
  | none => simp [getGE]

end Page

/-! ## Placemarks: adding -/

/-- On an identifier that reads as `undefined`, `addPlacemark` returns the placemark
it creates: the object `createPlacemark` made, named and given a point geometry. -/
theorem addPlacemark_of_undefined (p : Page) (self : Nat) (id name : String)
    (latitude longitude : Int) (altitude : Option Int)
    (h : getPlacemark p self id = .undefined) :
    ∃ kml : KmlPlacemark,
      (addPlacemark p self id name latitude longitude altitude).ret = some kml ∧
      kml.ref = (p.getGE self).fresh ∧
      getPlacemark (addPlacemark p self id name latitude longitude altitude).page self id
        = .object kml := by
  unfold getPlacemark at h
  simp only [addPlacemark, h, JSValue.truthy, Bool.not_false, if_true]
  refine ⟨_, rfl, rfl, ?_⟩
  simp [getPlacemark, Obj.get_set_self]

/-- The addition is refused exactly when the read of the identifier is truthy. -/
theorem addPlacemark_ret_eq_none_iff (p : Page) (self : Nat) (id name : String)
    (latitude longitude : Int) (altitude : Option Int) :
    (addPlacemark p self id name latitude longitude altitude).ret = none ↔
      (getPlacemark p self id).truthy = true := by
  unfold addPlacemark getPlacemark
  cases h : ((p.placemarks self).get id).truthy <;> simp

/-- C1, evaluated where it fails: on the starting page no placemark is registered
under "constructor", and yet `addPlacemark` with that identifier returns `undefined`
and creates nothing, because the guard reads the member every object inherits from
`Object.prototype`; `getPlacemark` then answers that member, not a placemark. -/
theorem addPlacemark_inherited_name_refused :
    (Page.start.placemarks 0).getOwn "constructor" = none ∧
    (addPlacemark Page.start 0 "constructor" "Home" 10 20 none).ret = none ∧
    ((addPlacemark Page.start 0 "constructor" "Home" 10 20 none).page.getGE 0).next = 0 ∧
    getPlacemark (addPlacemark Page.start 0 "constructor" "Home" 10 20 none).page 0
      "constructor" = .inherited "constructor" := by
  decide

/-- C2: when a placemark is registered under `id`, each of `addPlacemark`,
`addPlacemarkLine` and `addPlacemarkPolygon` called with `id` returns `undefined` and
leaves the whole page as it was (the cache, the feature tree, the objects the plugin
has created, the arrays of the caller), so `getPlacemark(id)` still answers the
original handle. -/
theorem add_registered_is_noop (p : Page) (self : Nat) (id : String) (pm : KmlPlacemark)
    (h : getPlacemark p self id = .object pm)
    (name : String) (latitude longitude : Int) (altitude : Option Int)
    (points outerPoly : List LatLngAlt) (innerPolies : Option (List (List LatLngAlt))) :
    ((addPlacemark p self id name latitude longitude altitude).ret = none ∧
      (addPlacemark p self id name latitude longitude altitude).page = p) ∧
    ((addPlacemarkLine p self id points altitude).ret = none ∧
      (addPlacemarkLine p self id points altitude).page = p ∧
      (addPlacemarkLine p self id points altitude).points = points) ∧
    ((addPlacemarkPolygon p self id outerPoly innerPolies altitude).ret = none ∧
      (addPlacemarkPolygon p self id outerPoly innerPolies altitude).page = p ∧
      (addPlacemarkPolygon p self id outerPoly innerPolies altitude).outerPoly = outerPoly ∧
      (addPlacemarkPolygon p self id outerPoly innerPolies altitude).innerPolies
        = innerPolies) ∧
    getPlacemark (addPlacemark p self id name latitude longitude altitude).page self id
      = .object pm ∧
    getPlacemark (addPlacemarkLine p self id points altitude).page self id = .object pm ∧
    getPlacemark (addPlacemarkPolygon p self id outerPoly innerPolies altitude).page self id
      = .object pm := by
  have ht : ((p.placemarks self).get id).truthy = true := by
    unfold getPlacemark at h
    rw [h]; rfl
  simp [addPlacemark, addPlacemarkLine, addPlacemarkPolygon, ht, h]

/-- C2 on the page where view 0 has added "pin": the three add methods called with
"pin" return `undefined` and leave the page as it was. -/
theorem add_registered_is_noop_witness :
    getPlacemark Page.withPin 0 "pin" = .object pin ∧
    (((addPlacemark Page.withPin 0 "pin" "Work" 1 2 (some 5)).ret = none ∧
      (addPlacemark Page.withPin 0 "pin" "Work" 1 2 (some 5)).page = Page.withPin) ∧
    ((addPlacemarkLine Page.withPin 0 "pin" [⟨1, 2, none⟩] (some 5)).ret = none ∧
      (addPlacemarkLine Page.withPin 0 "pin" [⟨1, 2, none⟩] (some 5)).page = Page.withPin ∧
      (addPlacemarkLine Page.withPin 0 "pin" [⟨1, 2, none⟩] (some 5)).points
        = [⟨1, 2, none⟩]) ∧
    ((addPlacemarkPolygon Page.withPin 0 "pin" [⟨3, 4, none⟩] none (some 5)).ret = none ∧
      (addPlacemarkPolygon Page.withPin 0 "pin" [⟨3, 4, none⟩] none (some 5)).page
        = Page.withPin ∧
      (addPlacemarkPolygon Page.withPin 0 "pin" [⟨3, 4, none⟩] none (some 5)).outerPoly
        = [⟨3, 4, none⟩] ∧
      (addPlacemarkPolygon Page.withPin 0 "pin" [⟨3, 4, none⟩] none (some 5)).innerPolies
        = none) ∧
    getPlacemark (addPlacemark Page.withPin 0 "pin" "Work" 1 2 (some 5)).page 0 "pin"
      = .object pin ∧
    getPlacemark (addPlacemarkLine Page.withPin 0 "pin" [⟨1, 2, none⟩] (some 5)).page 0 "pin"
      = .object pin ∧
    getPlacemark (addPlacemarkPolygon Page.withPin 0 "pin" [⟨3, 4, none⟩] none (some 5)).page
      0 "pin" = .object pin) :=
  ⟨by decide,
   add_registered_is_noop Page.withPin 0 "pin" pin (by decide)
     "Work" 1 2 (some 5) [⟨1, 2, none⟩] [⟨3, 4, none⟩] none⟩

/-! ## Placemarks: removing -/

theorem removePlacemark_of_truthy (p : Page) (self : Nat) (id : String)
    (ht : ((p.placemarks self).get id).truthy = true) :
    removePlacemark p self id
      = (p.updatePlacemarks self (fun o => o.delete id)).setGE self
          ((p.getGE self).removeChild ((p.placemarks self).get id)) := by
  simp [removePlacemark, ht]

theorem removePlacemark_of_falsy (p : Page) (self : Nat) (id : String)
    (hf : ((p.placemarks self).get id).truthy = false) :
    removePlacemark p self id = p := by
  simp [removePlacemark, hf]

/-- After `removePlacemark(id)` the read of `id` finds no own property: it is
`undefined` unless `id` names a member of `Object.prototype`. -/
theorem getPlacemark_removePlacemark (p : Page) (self : Nat) (id : String) :
    getPlacemark (removePlacemark p self id) self id
      = if id ∈ Object_prototype then .inherited id else .undefined := by
  cases ht : ((p.placemarks self).get id).truthy with
  | true =>
    rw [removePlacemark_of_truthy p self id ht]
    simp [getPlacemark, Obj.get_delete_self]
  | false =>
    rw [removePlacemark_of_falsy p self id ht]
    have h := (Obj.falsy_iff _ _).mp ht
    simp [getPlacemark, Obj.get, h.1, h.2]

/-- When a placemark is registered under `id`, `removePlacemark(id)` detaches that
object from the feature tree, keeping the other children in order, and evicts that
entry only. -/
theorem removePlacemark_of_object (p : Page) (self : Nat) (id : String) (pm : KmlPlacemark)
    (h : getPlacemark p self id = .object pm) :
    (removePlacemark p self id).features self
      = (p.features self).filter (fun c => c.ref != pm.ref) ∧
    ∀ id' : String, id' ≠ id →
      getPlacemark (removePlacemark p self id) self id' = getPlacemark p self id' := by
  unfold getPlacemark at h
  have ht : ((p.placemarks self).get id).truthy = true := by rw [h]; rfl
  rw [removePlacemark_of_truthy p self id ht]
  constructor
  · simp [h, Page.features, GEPlugin.removeChild]
  · intro id' hne
    simp [getPlacemark, Obj.get_delete_of_ne _ hne]

/-- When `id` reads as `undefined`, `removePlacemark(id)` leaves the page as it was. -/
theorem removePlacemark_of_undefined (p : Page) (self : Nat) (id : String)
    (h : getPlacemark p self id = .undefined) : removePlacemark p self id = p := by
  unfold getPlacemark at h
  exact removePlacemark_of_falsy p self id (by rw [h]; rfl)

/-- C3, evaluated where it fails: after `removePlacemark("toString")` on the starting
page, `getPlacemark("toString")` is not `undefined` but the function every object
inherits from `Object.prototype` (which the method has also handed to
`removeChild`, its guard being truthy). -/
theorem removePlacemark_inherited_name_still_read :
    (Page.start.placemarks 0).getOwn "toString" = none ∧
    (getPlacemark Page.start 0 "toString").truthy = true ∧
    getPlacemark (removePlacemark Page.start 0 "toString") 0 "toString"
      = .inherited "toString" := by
  decide

/-- The loop of `removeAllPlacemarks` detaches exactly the children held under one
of the enumerated names, and changes nothing else of the plugin. -/
theorem removeEach_eq (o : Obj KmlPlacemark) (ids : List String) (ge : GEPlugin) :
    removeEach o ids ge
      = { ge with features := ge.features.filter (fun c => !heldUnder o ids c.ref) } := by
  induction ids generalizing ge with
  | nil => simp [removeEach, heldUnder]
  | cons id ids ih =>
    rw [removeEach, ih]
    cases hg : o.get id with
    | undefined => simp [GEPlugin.removeChild, heldUnder, hg]
    | inherited n => simp [GEPlugin.removeChild, heldUnder, hg]
    | object a =>
      simp only [GEPlugin.removeChild, List.filter_filter, heldUnder, List.any_cons, hg]
      congr 1
      apply List.filter_congr
      intro c _
      cases h1 : (a.ref == c.ref) <;> cases h2 : (c.ref != a.ref) <;> simp_all

/-- A placemark that the cache answers is held by the cache. -/
theorem held_of_get (o : Obj KmlPlacemark) (id : String) (pm : KmlPlacemark)
    (h : o.get id = .object pm) : held o pm.ref = true := by
  have hown := (Obj.get_eq_object_iff o id pm).mp h
  unfold Obj.getOwn at hown
  cases hf : o.own.find? (fun e => e.1 == id) with
  | none => simp [hf] at hown
  | some e =>
    have hk : e.1 = id := by simpa using List.find?_some hf
    have hm : e ∈ o.own := List.mem_of_find?_eq_some hf
    unfold held heldUnder
    rw [List.any_eq_true]
    refine ⟨id, ?_, ?_⟩
    · rw [← hk]; exact List.mem_map_of_mem _ hm
    · simp [h]

/-- An identifier that has been added names no member of `Object.prototype`. -/
theorem not_inherited_of_Added (id : String) (h : Added id) : id ∉ Object_prototype := by
  have key : ∀ (q : Page) (s : Nat), ((q.placemarks s).get id).truthy = false →
      id ∉ Object_prototype := fun q s hf => ((Obj.falsy_iff _ _).mp hf).2
  rcases h with ⟨q, s, name, la, lo, al, hr⟩ | ⟨q, s, pts, al, hr⟩ | ⟨q, s, op, ip, al, hr⟩
  · apply key q s
    cases ht : ((q.placemarks s).get id).truthy with
    | false => rfl
    | true => simp [addPlacemark, ht] at hr
  · apply key q s
    cases ht : ((q.placemarks s).get id).truthy with
    | false => rfl
    | true => simp [addPlacemarkLine, ht] at hr
  · apply key q s
    cases ht : ((q.placemarks s).get id).truthy with
    | false => rfl
    | true => simp [addPlacemarkPolygon, ht] at hr

/-- C4: `removeAllPlacemarks()` detaches every cached placemark from the feature tree
(the children left are those no cache entry holds, in their order) and leaves the
view with an empty cache, so that `getPlacemark(id)` is `undefined` for every
identifier that had been added. -/
theorem removeAllPlacemarks_clears (p : Page) (self : Nat) :
    (removeAllPlacemarks p self).features self
      = (p.features self).filter (fun c => !held (p.placemarks self) c.ref) ∧
    (∀ (id : String) (pm : KmlPlacemark), getPlacemark p self id = .object pm →
      ∀ c ∈ (removeAllPlacemarks p self).features self, c.ref ≠ pm.ref) ∧
    (removeAllPlacemarks p self).placemarks self = Obj.empty ∧
    (∀ id : String, Added id →
      getPlacemark (removeAllPlacemarks p self) self id = .undefined) := by
  have hf : (removeAllPlacemarks p self).features self
      = (p.features self).filter (fun c => !held (p.placemarks self) c.ref) := by
    simp [removeAllPlacemarks, Page.features, removeEach_eq, held]
  refine ⟨hf, ?_, ?_, ?_⟩
  · intro id pm hg c hc hcr
    rw [hf, List.mem_filter] at hc
    have := held_of_get _ id pm hg
    rw [← hcr] at this
    simp [this] at hc
  · simp [removeAllPlacemarks]
  · intro id hadd
    have hn := not_inherited_of_Added id hadd
    simp [getPlacemark, removeAllPlacemarks, Obj.get_empty, hn]

/-- C4 on the page where view 0 has added "pin": the identifier has been added and is
registered; after `removeAllPlacemarks()` the feature tree has no child left and
`getPlacemark("pin")` is `undefined`. -/
theorem removeAllPlacemarks_clears_witness :
    Added "pin" ∧ getPlacemark Page.withPin 0 "pin" = .object pin ∧
    (removeAllPlacemarks Page.withPin 0).features 0 = [] ∧
    (∀ c ∈ (removeAllPlacemarks Page.withPin 0).features 0, c.ref ≠ pin.ref) ∧
    (removeAllPlacemarks Page.withPin 0).placemarks 0 = Obj.empty ∧
    getPlacemark (removeAllPlacemarks Page.withPin 0) 0 "pin" = .undefined :=
  have hadd : Added "pin" := Or.inl ⟨Page.start, 0, "Home", 10, 20, none, by decide⟩
  ⟨hadd, by decide,
   (removeAllPlacemarks_clears Page.withPin 0).1.trans (by decide),
   (removeAllPlacemarks_clears Page.withPin 0).2.1 "pin" pin (by decide),
   (removeAllPlacemarks_clears Page.withPin 0).2.2.1,
   (removeAllPlacemarks_clears Page.withPin 0).2.2.2 "pin" hadd⟩

/-! ## Camera -/

/-- C5 as stated fails: with `params = {lat: 10}` the field `lat` is provided, and yet
the look-at view written back is the copy of the current view, whose latitude is not
10: the latitude is only written together with the longitude. -/
theorem setCamera_lat_alone_not_written :
    (⟨some 10, none, none, none, none⟩ : CameraParams).lat = some 10 ∧
    ((setCamera Page.start 0 ⟨some 10, none, none, none, none⟩ none).getGE 0).abstractView
      = some ((Page.start.getGE 0).copyAsLookAt 1) ∧
    ((Page.start.getGE 0).copyAsLookAt 1).latitude ≠ 10 := by
  decide

/-- C5, amended: `setCamera` hands to `setAbstractView` the look-at copy of the current
view (taken in the given altitude mode, or relative to ground) in which latitude and
longitude are `lat` and `lon` when both are provided and are the copied ones when
either is missing; the range is `alt`, the tilt is `tilt` and the heading is
`heading`, each when provided and else as copied; altitude and altitude mode are as
copied.  With `{lat: 10, lon: 20}` only latitude and longitude change. -/
theorem setCamera_writes_provided_fields (p : Page) (self : Nat) (params : CameraParams)
    (altMode : Option Nat) :
    ∃ copy lookAt : KmlLookAt,
      copy = (p.getGE self).copyAsLookAt
        (match altMode with
          | some m => if m = 0 then (p.getGE self).ALTITUDE_RELATIVE_TO_GROUND else m
          | none => (p.getGE self).ALTITUDE_RELATIVE_TO_GROUND) ∧
      ((setCamera p self params altMode).getGE self).abstractView = some lookAt ∧
      (∀ la lo : Int, params.lat = some la → params.lon = some lo →
        lookAt.latitude = la ∧ lookAt.longitude = lo) ∧
      (params.lat = none ∨ params.lon = none →
        lookAt.latitude = copy.latitude ∧ lookAt.longitude = copy.longitude) ∧
      (∀ a : Int, params.alt = some a → lookAt.range = a) ∧
      (params.alt = none → lookAt.range = copy.range) ∧
      (∀ t : Int, params.tilt = some t → lookAt.tilt = t) ∧
      (params.tilt = none → lookAt.tilt = copy.tilt) ∧
      (∀ hd : Int, params.heading = some hd → lookAt.heading = hd) ∧
      (params.heading = none → lookAt.heading = copy.heading) ∧
      lookAt.altitude = copy.altitude ∧ lookAt.altitudeMode = copy.altitudeMode ∧
      (params = ⟨some 10, some 20, none, none, none⟩ →
        lookAt = { copy with latitude := 10, longitude := 20 }) := by
  refine ⟨_, applyCamera params ((p.getGE self).copyAsLookAt
      (match altMode with
        | some m => if m = 0 then (p.getGE self).ALTITUDE_RELATIVE_TO_GROUND else m
        | none => (p.getGE self).ALTITUDE_RELATIVE_TO_GROUND)), rfl, ?_, ?_⟩
  · simp only [setCamera, Page.getGE_setGE, GEPlugin.setAbstractView]
    cases altMode with
    | none => rfl
    | some m =>
      by_cases hm : m = 0 <;> simp [truthyNat, hm]
  · rcases params with ⟨lat, lon, alt, tilt, heading⟩
    cases lat <;> cases lon <;> cases alt <;> cases tilt <;> cases heading <;>
      simp [applyCamera]

/-- C5 on the scenario of the specification: `setCamera({lat: 10, lon: 20})` on the
starting page writes back the copied view with latitude 10 and longitude 20, its
range, tilt and heading being those of the copy. -/
theorem setCamera_writes_provided_fields_witness :
    ((setCamera Page.start 0 ⟨some 10, some 20, none, none, none⟩ none).getGE 0).abstractView
      = some ⟨10, 20, 0, 1, 1000, 0, 0⟩ := by
  obtain ⟨copy, lookAt, hc, hv, -, -, -, -, -, -, -, -, -, -, h⟩ :=
    setCamera_writes_provided_fields Page.start 0 ⟨some 10, some 20, none, none, none⟩ none
  rw [hv, h rfl, hc]
  rfl

/-! ## Icons -/

/-- The rectangle `addIcon` sets: the four values when all four are truthy, and
none of them otherwise. -/
theorem addIcon_rectangle (p : Page) (self : Nat) (id href : String) (x y w h : Option Nat) :
    ∃ icon : KmlIcon, (addIcon p self id href x y w h).ret = some icon ∧
      icon.href = some href ∧
      (truthyNat x = true → truthyNat y = true → truthyNat w = true → truthyNat h = true →
        icon.x = x ∧ icon.y = y ∧ icon.w = w ∧ icon.h = h) ∧
      (truthyNat x = false ∨ truthyNat y = false ∨ truthyNat w = false ∨ truthyNat h = false →
        icon.x = none ∧ icon.y = none ∧ icon.w = none ∧ icon.h = none) := by
  refine ⟨_, rfl, ?_, ?_, ?_⟩
  · by_cases hc : (truthyNat x && truthyNat y && truthyNat w && truthyNat h) = true <;>
      simp [hc, GEPlugin.createIcon]
  · intro hx hy hw hh
    simp [hx, hy, hw, hh]
  · intro hor
    have hc : (truthyNat x && truthyNat y && truthyNat w && truthyNat h) = false := by
      rcases hor with h1 | h1 | h1 | h1 <;> simp [h1]
    simp [hc, GEPlugin.createIcon]

/-- The plugin instance after `addIcon` has created one more object. -/
theorem getGE_addIcon (p : Page) (self : Nat) (id href : String) (x y w h : Option Nat) :
    (addIcon p self id href x y w h).page.getGE self = (p.getGE self).created := by
  simp [addIcon, GEPlugin.createIcon]

/-- C6, evaluated where the code fails it: `addIcon("tile", "sprites.png", 0, 0, 16, 16)`
provides all four of x, y, w and h, and the icon it creates has none of them set,
because the guard `x && y && w && h` takes the offset 0 for a missing argument. -/
theorem addIcon_zero_offset_sets_no_rectangle :
    (addIcon Page.start 0 "tile" "sprites.png" (some 0) (some 0) (some 16) (some 16)).ret
      = some ⟨⟨0, 0⟩, some "sprites.png", none, none, none, none⟩ := by
  decide

/-- C8: `addIcon` always returns the icon it creates and registers it under `id`
whatever was there; after two calls with the same `id`, `getIcon(id)`
answers the icon of the second call, a different object from the first, with the
second href. -/
theorem addIcon_overwrites (p : Page) (self : Nat) (id href1 href2 : String)
    (x1 y1 w1 h1 x2 y2 w2 h2 : Option Nat) :
    ∃ icon1 icon2 : KmlIcon,
      (addIcon p self id href1 x1 y1 w1 h1).ret = some icon1 ∧
      getIcon (addIcon p self id href1 x1 y1 w1 h1).page self id = .object icon1 ∧
      (addIcon (addIcon p self id href1 x1 y1 w1 h1).page self id href2 x2 y2 w2 h2).ret
        = some icon2 ∧
      getIcon (addIcon (addIcon p self id href1 x1 y1 w1 h1).page self id href2 x2 y2 w2 h2).page
        self id = .object icon2 ∧
      icon2.href = some href2 ∧ icon2.ref ≠ icon1.ref := by
  refine ⟨_, _, rfl, ?_, rfl, ?_, ?_, ?_⟩
  · simp [addIcon, getIcon, Page.setGE, Obj.get_set_self]
  · simp only [addIcon, getIcon, Page.setGE, Obj.get_set_self]
  · by_cases hc : (truthyNat x2 && truthyNat y2 && truthyNat w2 && truthyNat h2) = true <;>
      simp [hc, GEPlugin.createIcon]
  · by_cases hc : (truthyNat x2 && truthyNat y2 && truthyNat w2 && truthyNat h2) = true <;>
      by_cases hd : (truthyNat x1 && truthyNat y1 && truthyNat w1 && truthyNat h1) = true <;>
      simp [hc, hd, GEPlugin.createIcon, GEPlugin.fresh, getGE_addIcon, GEPlugin.created]

/-! ## Lines -/

/-- The altitude bias after `if(!altitude) altitude = 0`. -/
theorem altitude_default (altitude : Option Int) :
    (if !truthyNum altitude then 0 else altitude.getD 0) = altitude.getD 0 := by
  cases altitude with
  | none => rfl
  | some n =>
    by_cases hn : n = 0 <;> simp [truthyNum, hn]

/-- The vertex loop pushes one coordinate per point, in order, after those already
there. -/
theorem pushPoints_coords (altitude : Int) (points : List LatLngAlt) (coords : List KmlVertex) :
    (pushPoints altitude points coords).1
      = coords ++ points.map (fun pt => ⟨pt.lat, pt.lng, ⟨pt.alt.getD 0, altitude⟩⟩) := by
  induction points generalizing coords with
  | nil => simp [pushPoints]
  | cons pt rest ih =>
    simp only [pushPoints, ih, List.map_cons, List.append_assoc, List.singleton_append]
    rcases pt with ⟨la, lo, al⟩
    cases al with
    | none => simp [truthyNum]
    | some n =>
      by_cases hn : n = 0 <;> simp [truthyNum, hn]

/-- On an identifier that reads as `undefined`, `addPlacemarkLine(id, points,
altitude)` returns a placemark whose line string has exactly one coordinate per input
point, in input order, with latitude `pt[0]`, longitude `pt[1]` and, as altitude, the
sum of (`pt[2]`, or 0 when omitted) and (`altitude`, or 0 when omitted). -/
theorem addPlacemarkLine_of_undefined (p : Page) (self : Nat) (id : String)
    (points : List LatLngAlt) (altitude : Option Int)
    (h : getPlacemark p self id = .undefined) :
    ∃ (kml : KmlPlacemark) (line : KmlLineString),
      (addPlacemarkLine p self id points altitude).ret = some kml ∧
      kml.geometry = some (.lineString line) ∧
      line.coordinates.length = points.length ∧
      line.coordinates
        = points.map (fun pt => ⟨pt.lat, pt.lng, ⟨pt.alt.getD 0, altitude.getD 0⟩⟩) := by
  unfold getPlacemark at h
  simp only [addPlacemarkLine, h, JSValue.truthy, Bool.not_false, if_true, altitude_default]
  refine ⟨_, _, rfl, rfl, ?_, ?_⟩
  · simp [pushPoints_coords, GEPlugin.createLineString]
  · simp [pushPoints_coords, GEPlugin.createLineString]

/-- The example of the specification: `addPlacemarkLine("route", [[1,2],[3,4]], 5)` on
the starting page gives two vertices, whose altitudes are the sums `0 + 5` and
`0 + 5`, both 5. -/
theorem addPlacemarkLine_route :
    (addPlacemarkLine Page.start 0 "route" [⟨1, 2, none⟩, ⟨3, 4, none⟩] (some 5)).ret
      = some ⟨⟨0, 0⟩, none,
          some (.lineString ⟨⟨0, 1⟩, [⟨1, 2, ⟨0, 5⟩⟩, ⟨3, 4, ⟨0, 5⟩⟩], some 0, some true⟩)⟩ ∧
    (⟨0, 5⟩ : JSSum).toInt? = some 5 := by
  decide

/-- C7, evaluated where the code fails it: on the starting page no placemark is
registered under "constructor", the identifier is unused, and yet
`addPlacemarkLine("constructor", [[1,2],[3,4]], 5)` returns `undefined`, creates no
object and attaches nothing: no coordinate is pushed for the two points, because the
guard reads the member every object inherits from `Object.prototype`. -/
theorem addPlacemarkLine_inherited_name_refused :
    (Page.start.placemarks 0).getOwn "constructor" = none ∧
    (addPlacemarkLine Page.start 0 "constructor" [⟨1, 2, none⟩, ⟨3, 4, none⟩] (some 5)).ret
      = none ∧
    ((addPlacemarkLine Page.start 0 "constructor" [⟨1, 2, none⟩, ⟨3, 4, none⟩]
      (some 5)).page.getGE 0).next = 0 ∧
    (addPlacemarkLine Page.start 0 "constructor" [⟨1, 2, none⟩, ⟨3, 4, none⟩]
      (some 5)).page.features 0 = [] ∧
    getPlacemark (addPlacemarkLine Page.start 0 "constructor" [⟨1, 2, none⟩, ⟨3, 4, none⟩]
      (some 5)).page 0 "constructor" = .inherited "constructor" := by
  decide

/-! ## The caches of two views -/

/-- While two views both inherit `_placemarks` from the prototype, a placemark added
through one of them is what the other reads under the same identifier. -/
theorem getPlacemark_of_other_view (p : Page) (a b : Nat) (id name : String)
    (latitude longitude : Int) (altitude : Option Int)
    (ha : (p.views a)._placemarks = none) (hb : (p.views b)._placemarks = none)
    (h : getPlacemark p a id = .undefined) :
    ∃ kml : KmlPlacemark,
      (addPlacemark p a id name latitude longitude altitude).ret = some kml ∧
      getPlacemark (addPlacemark p a id name latitude longitude altitude).page b id
        = .object kml := by
  unfold getPlacemark at h
  simp only [addPlacemark, h, JSValue.truthy, Bool.not_false, if_true]
  refine ⟨_, rfl, ?_⟩
  simp only [getPlacemark, Page.placemarks_setGE]
  have hp : ∀ f : Obj KmlPlacemark → Obj KmlPlacemark,
      (p.updatePlacemarks a f).placemarks b = f p.prototype_placemarks := by
    intro f
    simp [Page.updatePlacemarks, ha, Page.placemarks, hb]
  rw [hp, Obj.get_set_self]

/-- C9, evaluated where the code fails it: on the starting page view 1 reads "pin",
"flag" and "plain" as `undefined`; after view 0 has added a placemark, an icon and a
style under these identifiers, view 1 reads the objects of view 0, and its own
`addPlacemark("pin", ...)` is refused. -/
theorem caches_shared_between_views :
    (getPlacemark Page.start 1 "pin" = .undefined ∧
      getIcon Page.start 1 "flag" = .undefined ∧
      getStyle Page.start 1 "plain" = .undefined) ∧
    getPlacemark (addPlacemark Page.start 0 "pin" "Home" 10 20 none).page 1 "pin"
      = .object pin ∧
    (addPlacemark (addPlacemark Page.start 0 "pin" "Home" 10 20 none).page 1
      "pin" "Work" 30 40 none).ret = none ∧
    getIcon (addIcon Page.start 0 "flag" "flag.png" none none none none).page 1 "flag"
      = .object ⟨⟨0, 0⟩, some "flag.png", none, none, none, none⟩ ∧
    getStyle (addStyle
        (Page.start.setGE 0 (createSimplePolyStyle (Page.start.getGE 0) none none none).2) 0
        "plain" (createSimplePolyStyle (Page.start.getGE 0) none none none).1 none).page
      1 "plain"
      = .object ⟨⟨0, 1⟩,
          some (⟨⟨0, 0⟩, some false, some false, none, none, none⟩,
                ⟨⟨0, 0⟩, some false, some false, none, none, none⟩)⟩ := by
  decide

/-! ## EarthStyles.js -/

/-- C10 as stated fails: with an outline colour and the width 0 supplied, the line
width of the style is 1, not the width supplied. -/
theorem createSimplePolyStyle_zero_width :
    (createSimplePolyStyle (GEPlugin.start 0) none (some "ff0000ff") (some 0)).1.lineWidth
      = some 1 ∧
    (createSimplePolyStyle (GEPlugin.start 0) none (some "ff0000ff") (some 0)).1.lineWidth
      ≠ some 0 := by
  decide

/-- Every width that is falsy, the width 0 included, is replaced by 1. -/
theorem createSimplePolyStyle_lineWidth (ge : GEPlugin) (fill : Option String) (c : String)
    (hc : c ≠ "") (width : Option Int) :
    (createSimplePolyStyle ge fill (some c) width).1.lineWidth
      = some (if truthyNum width then width.getD 0 else 1) := by
  rcases fill with _ | f <;> rcases width with _ | n
  all_goals simp [createSimplePolyStyle, truthyStr, truthyNum, GEPlugin.createStyle, hc]
  all_goals split_ifs <;> simp_all

/-- C10, amended: the style `createSimplePolyStyle(ge, fill, outline, width)` returns
has its fill flag enabled when a fill colour (a non-empty string) is supplied, and then
its polygon colour is `fill`, and disabled when `fill` is omitted; it has its outline
flag enabled when an outline colour is supplied, and then its line colour is `outline`
and its line width is `width` when a width other than 0 is supplied and 1 when `width`
is omitted, and disabled when `outline` is omitted.  With both colours omitted both
flags are disabled; with only `fill` supplied fill is enabled and outline disabled. -/
theorem createSimplePolyStyle_flags (ge : GEPlugin) (fill outline : Option String)
    (width : Option Int) :
    (∀ c : String, fill = some c → c ≠ "" →
      (createSimplePolyStyle ge fill outline width).1.polyFill = some true ∧
      (createSimplePolyStyle ge fill outline width).1.polyColor = some c) ∧
    (fill = none →
      (createSimplePolyStyle ge fill outline width).1.polyFill = some false) ∧
    (∀ c : String, outline = some c → c ≠ "" →
      (createSimplePolyStyle ge fill outline width).1.polyOutline = some true ∧
      (createSimplePolyStyle ge fill outline width).1.lineColor = some c ∧
      (∀ n : Int, width = some n → n ≠ 0 →
        (createSimplePolyStyle ge fill outline width).1.lineWidth = some n) ∧
      (width = none →
        (createSimplePolyStyle ge fill outline width).1.lineWidth = some 1)) ∧
    (outline = none →
      (createSimplePolyStyle ge fill outline width).1.polyOutline = some false) ∧
    (fill = none → outline = none →
      (createSimplePolyStyle ge fill outline width).1.polyFill = some false ∧
      (createSimplePolyStyle ge fill outline width).1.polyOutline = some false) ∧
    (∀ c : String, fill = some c → c ≠ "" → outline = none →
      (createSimplePolyStyle ge fill outline width).1.polyFill = some true ∧
      (createSimplePolyStyle ge fill outline width).1.polyOutline = some false) := by
  rcases fill with _ | f <;> rcases outline with _ | o <;> rcases width with _ | n
  all_goals simp [createSimplePolyStyle, truthyStr, truthyNum, GEPlugin.createStyle]
  all_goals split_ifs <;> simp_all

/-- C10 on two calls: with only a fill colour the style has fill enabled, that colour
and outline disabled; with an outline colour and the width 3 it has outline enabled,
that colour and the line width 3. -/
theorem createSimplePolyStyle_flags_witness :
    ((createSimplePolyStyle (GEPlugin.start 0) (some "7f00ff00") none none).1.polyFill
        = some true ∧
      (createSimplePolyStyle (GEPlugin.start 0) (some "7f00ff00") none none).1.polyOutline
        = some false) ∧
    ((createSimplePolyStyle (GEPlugin.start 0) none (some "ff0000ff") (some 3)).1.polyOutline
        = some true ∧
      (createSimplePolyStyle (GEPlugin.start 0) none (some "ff0000ff") (some 3)).1.lineColor
        = some "ff0000ff" ∧
      (createSimplePolyStyle (GEPlugin.start 0) none (some "ff0000ff") (some 3)).1.lineWidth
        = some 3) :=
  ⟨(createSimplePolyStyle_flags (GEPlugin.start 0) (some "7f00ff00") none none).2.2.2.2.2
      "7f00ff00" rfl (by decide) rfl,
   ((createSimplePolyStyle_flags (GEPlugin.start 0) none (some "ff0000ff") (some 3)).2.2.1
      "ff0000ff" rfl (by decide)).1,
   ((createSimplePolyStyle_flags (GEPlugin.start 0) none (some "ff0000ff") (some 3)).2.2.1
      "ff0000ff" rfl (by decide)).2.1,
   ((createSimplePolyStyle_flags (GEPlugin.start 0) none (some "ff0000ff") (some 3)).2.2.1
      "ff0000ff" rfl (by decide)).2.2.1 3 rfl (by decide)⟩

/-! ## Own properties as a list of entries -/

namespace Obj

variable {α : Type}

theorem getOwn_eq_none_iff (o : Obj α) (k : String) :
    o.getOwn k = none ↔ ∀ e ∈ o.own, e.1 ≠ k := by
  unfold getOwn
  rw [Option.map_eq_none', List.find?_eq_none]
  constructor
  · intro h e he hk
    exact h e he (by simp [hk])
  · intro h e he hk
    exact h e he (by simpa using hk)

theorem own_set_of_getOwn_none (o : Obj α) (k : String) (a : α) (h : o.getOwn k = none) :
    (o.set k a).own = o.own ++ [(k, a)] := by
  have hn := (getOwn_eq_none_iff o k).mp h
  have hany : o.own.any (fun e => e.1 == k) = false := by
    rw [Bool.eq_false_iff]
    intro ht
    obtain ⟨e, he, hk⟩ := List.any_eq_true.mp ht
    exact hn e he (by simpa using hk)
  simp [set, hany]

theorem delete_of_getOwn_none (o : Obj α) (k : String) (h : o.getOwn k = none) :
    o.delete k = o := by
  have hn := (getOwn_eq_none_iff o k).mp h
  rcases o with ⟨l⟩
  simp only [delete, Obj.mk.injEq]
  rw [List.filter_eq_self]
  intro e he
  simpa using hn e he

theorem mem_of_getOwn (o : Obj α) (k : String) (a : α) (h : o.getOwn k = some a) :
    (k, a) ∈ o.own := by
  unfold getOwn at h
  cases hf : o.own.find? (fun e => e.1 == k) with
  | none => simp [hf] at h
  | some e =>
    have hk : e.1 = k := by simpa using List.find?_some hf
    have hm : e ∈ o.own := List.mem_of_find?_eq_some hf
    have ha : e.2 = a := by simpa [hf] using h
    rcases e with ⟨k', a'⟩
    simp only at hk ha
    rw [← hk, ← ha]
    exact hm

theorem getOwn_of_mem (o : Obj α) (k : String) (a : α)
    (hn : (o.own.map (fun e => e.1)).Nodup) (h : (k, a) ∈ o.own) :
    o.getOwn k = some a := by
  cases hg : o.getOwn k with
  | none => exact absurd rfl ((getOwn_eq_none_iff o k).mp hg (k, a) h)
  | some b =>
    have hb := mem_of_getOwn o k b hg
    have := List.inj_on_of_nodup_map hn hb h rfl
    simp only [Prod.mk.injEq, true_and] at this
    rw [this]

end Obj

/-! ## The cache and the feature tree stay in step -/

/-- A view with no cache entry and no child in its feature tree is consistent. -/
theorem Consistent.of_empty (p : Page) (self : Nat)
    (hcache : (p.placemarks self).own = []) (hfeatures : p.features self = []) :
    Consistent p self := by
  refine ⟨?_, ?_, ?_, ?_⟩ <;> simp [hcache, hfeatures]

/-- Registering a newly created placemark under a name that reads falsy, and
appending it to the feature tree, keeps the view consistent. -/
theorem Consistent.add {p : Page} {self : Nat} (h : Consistent p self) (id : String)
    (kml : KmlPlacemark) (ge : GEPlugin)
    (hfalsy : ((p.placemarks self).get id).truthy = false)
    (href : kml.ref = (p.getGE self).fresh)
    (hfeat : ge.features = (p.getGE self).features)
    (hpid : ge.pid = (p.getGE self).pid)
    (hnext : (p.getGE self).next < ge.next) :
    Consistent ((p.updatePlacemarks self (fun o => o.set id kml)).setGE self
      (ge.appendChild kml)) self := by
  have hnone := ((Obj.falsy_iff _ _).mp hfalsy).1
  have hown := Obj.own_set_of_getOwn_none _ id kml hnone
  have hnew := (Obj.getOwn_eq_none_iff _ _).mp hnone
  have hf := h.attached
  unfold Page.features at hf
  refine ⟨?_, ?_, ?_, ?_⟩
  · simp [Page.features, GEPlugin.appendChild, hown, hfeat, hf]
  · simp only [Page.placemarks_setGE, Page.placemarks_updatePlacemarks, hown, List.map_append,
      List.map_cons, List.map_nil]
    rw [List.nodup_append]
    refine ⟨h.names, List.nodup_singleton _, ?_⟩
    intro k hk hk'
    simp only [List.mem_singleton] at hk'
    obtain ⟨e, he, hek⟩ := List.mem_map.mp hk
    exact hnew e he (hek.trans hk')
  · simp only [Page.placemarks_setGE, Page.placemarks_updatePlacemarks, hown, List.map_append,
      List.map_cons, List.map_nil]
    rw [List.nodup_append]
    refine ⟨h.objects, List.nodup_singleton _, ?_⟩
    intro r hr hr'
    simp only [List.mem_singleton] at hr'
    obtain ⟨e, he, her⟩ := List.mem_map.mp hr
    have hlt := (h.created e he).2
    rw [her, hr', href] at hlt
    exact Nat.lt_irrefl _ hlt
  · intro e he
    simp only [Page.placemarks_setGE, Page.placemarks_updatePlacemarks, hown, List.mem_append,
      List.mem_singleton] at he
    simp only [Page.getGE_setGE, GEPlugin.appendChild, hpid]
    rcases he with he | he
    · exact ⟨(h.created e he).1, Nat.lt_trans (h.created e he).2 hnext⟩
    · rw [he]
      simp only [href, GEPlugin.fresh]
      exact ⟨trivial, hnext⟩

/-- The loop over the inner polygons creates rings: it leaves the feature tree and the
identity of the plugin alone, and the plugin has created no fewer objects. -/
theorem pushInner_plugin (altitude : Int) (inners : List (List LatLngAlt))
    (poly : KmlPolygon) (ge : GEPlugin) :
    (pushInner altitude inners poly ge).2.1.features = ge.features ∧
    (pushInner altitude inners poly ge).2.1.pid = ge.pid ∧
    ge.next ≤ (pushInner altitude inners poly ge).2.1.next := by
  induction inners generalizing poly ge with
  | nil => simp [pushInner]
  | cons inner rest ih =>
    simp only [pushInner]
    obtain ⟨h1, h2, h3⟩ := ih
      { poly with innerBoundaries := poly.innerBoundaries ++
          [{ (ge.createLinearRing.1) with
              altitudeMode := some ge.createLinearRing.2.ALTITUDE_CLAMP_TO_GROUND,
              coordinates := (pushPoints altitude inner ge.createLinearRing.1.coordinates).1 }] }
      ge.createLinearRing.2
    refine ⟨h1, h2, ?_⟩
    have : ge.next ≤ ge.createLinearRing.2.next := by
      simp [GEPlugin.createLinearRing, GEPlugin.created]
    exact Nat.le_trans this h3

theorem Consistent.addPlacemark {p : Page} {self : Nat} (h : Consistent p self)
    (id name : String) (latitude longitude : Int) (altitude : Option Int) :
    Consistent (GEView.addPlacemark p self id name latitude longitude altitude).page self := by
  cases hg : ((p.placemarks self).get id).truthy with
  | true => simpa [GEView.addPlacemark, hg] using h
  | false =>
    simp only [GEView.addPlacemark, hg, Bool.not_false, if_true]
    apply h.add id _ _ hg
    · rfl
    · rfl
    · rfl
    · simp only [GEPlugin.createPlacemark, GEPlugin.createPoint, GEPlugin.created]
      omega

theorem Consistent.addPlacemarkLine {p : Page} {self : Nat} (h : Consistent p self)
    (id : String) (points : List LatLngAlt) (altitude : Option Int) :
    Consistent (GEView.addPlacemarkLine p self id points altitude).page self := by
  cases hg : ((p.placemarks self).get id).truthy with
  | true => simpa [GEView.addPlacemarkLine, hg] using h
  | false =>
    simp only [GEView.addPlacemarkLine, hg, Bool.not_false, if_true]
    apply h.add id _ _ hg
    · rfl
    · rfl
    · rfl
    · simp only [GEPlugin.createPlacemark, GEPlugin.createLineString, GEPlugin.created]
      omega

theorem Consistent.addPlacemarkPolygon {p : Page} {self : Nat} (h : Consistent p self)
    (id : String) (outerPoly : List LatLngAlt) (innerPolies : Option (List (List LatLngAlt)))
    (altitude : Option Int) :
    Consistent (GEView.addPlacemarkPolygon p self id outerPoly innerPolies altitude).page
      self := by
  cases hg : ((p.placemarks self).get id).truthy with
  | true => simpa [GEView.addPlacemarkPolygon, hg] using h
  | false =>
    simp only [GEView.addPlacemarkPolygon, hg, Bool.not_false, if_true]
    cases innerPolies with
    | none =>
      apply h.add id _ _ hg
      · rfl
      · rfl
      · rfl
      · simp only [GEPlugin.createPlacemark, GEPlugin.createPolygon,
          GEPlugin.createLinearRing, GEPlugin.created]
        omega
    | some inners =>
      simp only
      apply h.add id _ _ hg
      · rfl
      · rw [(pushInner_plugin _ _ _ _).1]; rfl
      · rw [(pushInner_plugin _ _ _ _).2.1]; rfl
      · refine Nat.lt_of_lt_of_le ?_ (pushInner_plugin _ _ _ _).2.2
        simp only [GEPlugin.createPlacemark, GEPlugin.createPolygon,
          GEPlugin.createLinearRing, GEPlugin.created]
        omega

theorem Obj.getOwn_of_get_inherited {α : Type} (o : Obj α) (k n : String)
    (h : o.get k = .inherited n) : o.getOwn k = none := by
  unfold Obj.get at h
  cases hg : o.getOwn k with
  | none => rfl
  | some a => simp [hg] at h

theorem Consistent.removePlacemark {p : Page} {self : Nat} (h : Consistent p self)
    (id : String) : Consistent (GEView.removePlacemark p self id) self := by
  cases ht : ((p.placemarks self).get id).truthy with
  | false => rw [removePlacemark_of_falsy p self id ht]; exact h
  | true =>
    rw [removePlacemark_of_truthy p self id ht]
    have hf := h.attached
    unfold Page.features at hf
    cases hg : (p.placemarks self).get id with
    | undefined => simp [hg, JSValue.truthy] at ht
    | inherited n =>
      have hd := Obj.delete_of_getOwn_none _ id (Obj.getOwn_of_get_inherited _ _ _ hg)
      refine ⟨?_, ?_, ?_, ?_⟩
      · simpa [Page.features, GEPlugin.removeChild, hd] using hf
      · simpa [hd] using h.names
      · simpa [hd] using h.objects
      · simpa [hd, GEPlugin.removeChild] using h.created
    | object a =>
      have hmem := Obj.mem_of_getOwn _ id a ((Obj.get_eq_object_iff _ _ _).mp hg)
      have hsub : ((p.placemarks self).delete id).own.Sublist (p.placemarks self).own := by
        simp only [Obj.delete]
        exact List.filter_sublist _
      have key : ∀ e ∈ (p.placemarks self).own, (!(e.1 == id)) = (e.2.ref != a.ref) := by
        intro e he
        by_cases h1 : e.1 = id
        · have := List.inj_on_of_nodup_map h.names he hmem h1
          simp [this]
        · have h2 : e.2.ref ≠ a.ref := by
            intro hr
            have := List.inj_on_of_nodup_map h.objects he hmem hr
            exact h1 (by rw [this])
          have b1 : (e.1 == id) = false := beq_eq_false_iff_ne.mpr h1
          have b2 : (e.2.ref != a.ref) = true := bne_iff_ne.mpr h2
          rw [b1, b2]; rfl
      refine ⟨?_, ?_, ?_, ?_⟩
      · simp only [Page.features, Page.getGE_setGE, GEPlugin.removeChild, Page.placemarks_setGE,
          Page.placemarks_updatePlacemarks, Obj.delete, hf, List.filter_map]
        congr 1
        apply List.filter_congr
        intro e he
        simp only [Function.comp]
        exact (key e he).symm
      · simp only [Page.placemarks_setGE, Page.placemarks_updatePlacemarks]
        exact h.names.sublist (hsub.map _)
      · simp only [Page.placemarks_setGE, Page.placemarks_updatePlacemarks]
        exact h.objects.sublist (hsub.map _)
      · intro e he
        simp only [Page.placemarks_setGE, Page.placemarks_updatePlacemarks] at he
        simpa [GEPlugin.removeChild] using h.created e (hsub.subset he)

theorem Consistent.removeAllPlacemarks {p : Page} {self : Nat} (h : Consistent p self) :
    Consistent (GEView.removeAllPlacemarks p self) self := by
  have hfeat : (GEView.removeAllPlacemarks p self).features self = [] := by
    have hrm : (GEView.removeAllPlacemarks p self).features self
        = (p.features self).filter (fun c => !held (p.placemarks self) c.ref) := by
      simp [GEView.removeAllPlacemarks, Page.features, removeEach_eq, held]
    rw [hrm, List.filter_eq_nil_iff]
    intro c hc
    rw [h.attached] at hc
    obtain ⟨e, he, hec⟩ := List.mem_map.mp hc
    have hget : (p.placemarks self).get e.1 = .object c := by
      rw [Obj.get_eq_object_iff, ← hec]
      exact Obj.getOwn_of_mem _ e.1 e.2 h.names he
    simp [held_of_get _ _ _ hget]
  have hcache : (GEView.removeAllPlacemarks p self).placemarks self = Obj.empty := by
    simp [GEView.removeAllPlacemarks]
  refine ⟨?_, ?_, ?_, ?_⟩ <;> simp [hfeat, hcache, Obj.empty]

theorem Consistent.runCall {p : Page} {self : Nat} (h : Consistent p self) (c : Call) :
    Consistent (GEView.runCall p self c) self := by
  cases c with
  | addPlacemark id name latitude longitude altitude =>
    exact h.addPlacemark id name latitude longitude altitude
  | addPlacemarkLine id points altitude => exact h.addPlacemarkLine id points altitude
  | addPlacemarkPolygon id outerPoly innerPolies altitude =>
    exact h.addPlacemarkPolygon id outerPoly innerPolies altitude
  | removePlacemark id => exact h.removePlacemark id
  | removeAllPlacemarks => exact h.removeAllPlacemarks

theorem Consistent.runCalls {p : Page} {self : Nat} (h : Consistent p self)
    (calls : List Call) : Consistent (GEView.runCalls p self calls) self := by
  induction calls generalizing p with
  | nil => exact h
  | cons c cs ih => exact ih (h.runCall c)

/-- In a consistent view the cache answers a placemark under a name exactly when the
entry of that name holds it. -/
theorem Consistent.getPlacemark_iff {p : Page} {self : Nat} (h : Consistent p self)
    (id : String) (pm : KmlPlacemark) :
    getPlacemark p self id = .object pm ↔ (id, pm) ∈ (p.placemarks self).own := by
  unfold getPlacemark
  rw [Obj.get_eq_object_iff]
  exact ⟨Obj.mem_of_getOwn _ id pm, Obj.getOwn_of_mem _ id pm h.names⟩

/-- C11: for a view that starts with an empty placemark cache and an empty feature
tree, after any finite sequence of `addPlacemark`, `addPlacemarkLine`,
`addPlacemarkPolygon`, `removePlacemark` and `removeAllPlacemarks` calls the children
of the feature tree are the objects of the cache entries, entry by entry: a
placemark is answered by the cache under some identifier exactly when it is attached,
every attached object is attached once, and no object is answered under two
different identifiers. -/
theorem cache_matches_feature_tree (p : Page) (self : Nat) (calls : List Call)
    (hcache : (p.placemarks self).own = []) (hfeatures : p.features self = []) :
    (runCalls p self calls).features self
      = ((runCalls p self calls).placemarks self).own.map (fun e => e.2) ∧
    (∀ pm : KmlPlacemark,
      (∃ id : String, getPlacemark (runCalls p self calls) self id = .object pm) ↔
        pm ∈ (runCalls p self calls).features self) ∧
    (((runCalls p self calls).features self).map (fun c => c.ref)).Nodup ∧
    (∀ (id1 id2 : String) (pm1 pm2 : KmlPlacemark),
      getPlacemark (runCalls p self calls) self id1 = .object pm1 →
      getPlacemark (runCalls p self calls) self id2 = .object pm2 →
      pm1.ref = pm2.ref → id1 = id2) := by
  have h := (Consistent.of_empty p self hcache hfeatures).runCalls calls
  refine ⟨h.attached, ?_, ?_, ?_⟩
  · intro pm
    rw [h.attached, List.mem_map]
    constructor
    · rintro ⟨id, hid⟩
      exact ⟨(id, pm), (h.getPlacemark_iff id pm).mp hid, rfl⟩
    · rintro ⟨⟨id, pm'⟩, he, rfl⟩
      exact ⟨id, (h.getPlacemark_iff id pm').mpr he⟩
  · rw [h.attached, List.map_map]
    exact h.objects
  · intro id1 id2 pm1 pm2 h1 h2 hr
    have e1 := (h.getPlacemark_iff id1 pm1).mp h1
    have e2 := (h.getPlacemark_iff id2 pm2).mp h2
    have := List.inj_on_of_nodup_map h.objects e1 e2 hr
    exact (Prod.mk.inj this).1

/-- C11 on a sequence of calls of view 0 on the starting page, which adds, is refused,
removes and adds again: the cache and the feature tree start empty, they agree at
the end, and two placemarks are then attached. -/
theorem cache_matches_feature_tree_witness :
    (Page.start.placemarks 0).own = [] ∧ Page.start.features 0 = [] ∧
    ((runCalls Page.start 0 sampleCalls).features 0).map (fun c => c.ref)
      = [⟨0, 2⟩, ⟨0, 4⟩] ∧
    ((runCalls Page.start 0 sampleCalls).features 0
      = ((runCalls Page.start 0 sampleCalls).placemarks 0).own.map (fun e => e.2) ∧
    (∀ pm : KmlPlacemark,
      (∃ id : String, getPlacemark (runCalls Page.start 0 sampleCalls) 0 id = .object pm) ↔
        pm ∈ (runCalls Page.start 0 sampleCalls).features 0) ∧
    (((runCalls Page.start 0 sampleCalls).features 0).map (fun c => c.ref)).Nodup ∧
    (∀ (id1 id2 : String) (pm1 pm2 : KmlPlacemark),
      getPlacemark (runCalls Page.start 0 sampleCalls) 0 id1 = .object pm1 →
      getPlacemark (runCalls Page.start 0 sampleCalls) 0 id2 = .object pm2 →
      pm1.ref = pm2.ref → id1 = id2)) :=
  ⟨by decide, by decide, by decide,
   cache_matches_feature_tree Page.start 0 sampleCalls (by decide) (by decide)⟩

end GEView
